import Mathlib

/-!
Verification of the downloader / GCS-connector layer of the
`unstructured-ingest` repository.

The development shallowly embeds the Python code of
`unstructured_ingest/v2/interfaces/downloader.py` and
`unstructured_ingest/v2/processes/connectors/fsspec/gcs.py`.

Modelling choices (each stated at its definition):
* POSIX `pathlib` paths are a flag (absolute or not) plus the list of
  nonempty, non-dot components; `pathlib` join is purely lexical and an
  absolute right operand replaces the left operand.
* The filesystem timestamp store touched by `os.utime` is a function
  from paths to optional (access time, modification time) pairs.
* Python `float(...)` parsing, JSON parsing (`json_to_dict`, a repository
  utility whose source is not part of this excerpt) and `Path.is_file`
  probing are abstracted as explicit function parameters, since their
  behaviour is external to the code under verification.
-/

/-- A POSIX `pathlib.PurePath`: whether it is absolute, plus its nonempty
non-dot components in order.  `pathlib` collapses repeated separators and
drops single-dot components on construction. -/
structure PyPath where
  absolute : Bool
  components : List String
deriving DecidableEq, Repr

/-- Splitting a character list at every occurrence of `sep`, keeping
empty segments (the behaviour of Python `str.split(sep)`). -/
def splitOnChar (sep : Char) (cs : List Char) : List (List Char) :=
  cs.foldr
    (fun c acc =>
      if c = sep then [] :: acc else (c :: acc.headD []) :: acc.tail)
    [[]]

/-- Python `s.startswith("/")`, computed on the character list so that
it evaluates inside the kernel. -/
def startsWithSep (s : String) : Bool :=
  match s.data with
  | [] => false
  | c :: _ => c == '/'

/-- `pathlib.PurePosixPath(s)`: absolute iff the string starts with a
separator; components are the nonempty, non-dot separator-split pieces. -/
def parsePath (s : String) : PyPath :=
  { absolute := startsWithSep s
    components :=
      ((splitOnChar '/' s.data).map String.mk).filter
        (fun c => c != "" && c != ".") }

/-- `pathlib` join `p / q`: if `q` is absolute it replaces `p` entirely;
otherwise the components are concatenated.  No `..` normalisation happens. -/
def pathJoin (p q : PyPath) : PyPath :=
  if q.absolute then q
  else { absolute := p.absolute, components := p.components ++ q.components }

/-- Lexical rootedness: `p` lies under `root` when both have the same
absoluteness and the components of `root` are a prefix of those of `p`. -/
def isUnder (root p : PyPath) : Prop :=
  root.absolute = p.absolute ∧ root.components <+: p.components

instance (root p : PyPath) : Decidable (isUnder root p) :=
  inferInstanceAs (Decidable (_ ∧ _))

/-- Modelled from the spec: the source identifiers of a `FileData` record;
the downloader reads only the relative path, an optional string. -/
structure SourceIdentifiers where
  relative_path : Option String
deriving DecidableEq, Repr

/-- Modelled from the spec: descriptive metadata of a `FileData` record;
the downloader reads only the two string-encoded dates. -/
structure FileDataMetadata where
  date_modified : Option String
  date_created : Option String
deriving DecidableEq, Repr

/-- Modelled from the spec: a file descriptor identifying one remote
object, carrying optional source identifiers and metadata. -/
structure FileData where
  source_identifiers : Option SourceIdentifiers
  metadata : FileDataMetadata
deriving DecidableEq, Repr

/-- `DownloadResponse`: the `TypedDict` pairing a `FileData` with the
local path the bytes were written to. -/
structure DownloadResponse where
  file_data : FileData
  path : PyPath
deriving DecidableEq, Repr

/-- `Downloader.get_download_path`: `None` when the descriptor lacks
source identifiers or a (nonempty) relative path; otherwise one leading
separator is stripped from the relative path and the result joined under
the download directory. -/
def get_download_path (download_dir : PyPath) (file_data : FileData) :
    Option PyPath :=
  match file_data.source_identifiers with
  | none => none
  | some si =>
    match si.relative_path with
    | none => none
    | some rel_path =>
      if rel_path = "" then none
      else
        let stripped :=
          if startsWithSep rel_path then rel_path.drop 1 else rel_path
        some (pathJoin download_dir (parsePath stripped))

/-- The relative path after the single leading-separator strip performed
by `get_download_path`. -/
def stripLeadingSep (rel_path : String) : String :=
  if startsWithSep rel_path then rel_path.drop 1 else rel_path

/-- The filesystem timestamp store touched by `os.utime`: each existing
path carries an (access time, modification time) pair of epoch seconds,
modelled as rationals since the code only parses and stores them. -/
def TimeStore : Type := PyPath → Option (ℚ × ℚ)

/-- `os.utime(path, times=(atime, mtime))` as an update of the timestamp
store. -/
def os_utime (fs : TimeStore) (download_path : PyPath) (times : ℚ × ℚ) :
    TimeStore :=
  fun q => if q = download_path then some times else fs q

/-- `Downloader.is_float(value)`: `float(value)` succeeds, for the given
abstraction `pf` of Python float parsing. -/
def is_float (pf : String → Option ℚ) (value : String) : Bool :=
  (pf value).isSome

/-- The truthiness-and-parseability test the source applies to each date
field: `field and is_float(field)` (a missing or empty string is falsy). -/
def dateUsable (pf : String → Option ℚ) : Option String → Bool
  | none => false
  | some s => s != "" && is_float pf s

/-- `Downloader.generate_download_response`: when both metadata dates are
truthy and float-parseable, `os.utime` is applied with access time equal
to the parsed `date_created` and modification time equal to the parsed
`date_modified`; otherwise the store is untouched.  Either way the
`DownloadResponse` pairs the unchanged `FileData` with the path. -/
def generate_download_response (pf : String → Option ℚ) (fs : TimeStore)
    (file_data : FileData) (download_path : PyPath) :
    TimeStore × DownloadResponse :=
  if dateUsable pf file_data.metadata.date_modified &&
      dateUsable pf file_data.metadata.date_created then
    let date_modified := (file_data.metadata.date_modified.bind pf).getD 0
    let date_created := (file_data.metadata.date_created.bind pf).getD 0
    (os_utime fs download_path (date_created, date_modified),
      { file_data := file_data, path := download_path })
  else
    (fs, { file_data := file_data, path := download_path })

/-- `DownloaderConfig`: the optional user override of the download
directory. -/
structure DownloaderConfig where
  download_dir : Option PyPath
deriving DecidableEq, Repr

/-- The default download directory before `.resolve()`:
`Path.home() / ".cache" / "unstructured" / "ingest" / "download" /
connector_type`. -/
def defaultDownloadDir (home : PyPath) (connector_type : String) : PyPath :=
  pathJoin (pathJoin (pathJoin (pathJoin (pathJoin home
    (parsePath ".cache")) (parsePath "unstructured")) (parsePath "ingest"))
    (parsePath "download")) (parsePath connector_type)

/-- The `Downloader.download_dir` property: if the config has no
override, the `.resolve()`d default (with `Path.resolve` abstracted as
`resolvefn`) is stored into the config and returned; otherwise the
stored value is returned.  The returned pair is (updated config, path). -/
def download_dir (resolvefn : PyPath → PyPath) (home : PyPath)
    (connector_type : String) (cfg : DownloaderConfig) :
    DownloaderConfig × PyPath :=
  match cfg.download_dir with
  | some d => (cfg, d)
  | none =>
    let d := resolvefn (defaultDownloadDir home connector_type)
    ({ download_dir := some d }, d)

/-- `download_responses`: a downloader run yields one response or a
list of them. -/
inductive DownloadResponses where
  | single (r : DownloadResponse)
  | many (rs : List DownloadResponse)
deriving DecidableEq, Repr

/-- Keyword options forwarded through `run` / `run_async`, modelled as
string pairs (the downloader code never inspects them). -/
def Kwargs : Type := List (String × String)

/-- A concrete downloader backend: its abstract synchronous `run`. -/
structure DownloaderImpl where
  run : FileData → Kwargs → DownloadResponses

/-- The default `Downloader.run_async`: it returns exactly
`self.run(file_data=file_data, **kwargs)`. -/
def run_async (d : DownloaderImpl) (file_data : FileData)
    (kwargs : Kwargs) : DownloadResponses :=
  d.run file_data kwargs

/-- The value stored in `GcsAccessConfig.token`
(`Union[str, dict, None]`); `α` is the type of parsed JSON dictionaries,
kept abstract because `json_to_dict` is a repository utility outside
this excerpt. -/
inductive TokenValue (α : Type) where
  | null
  | str (s : String)
  | dict (d : α)
deriving DecidableEq, Repr

/-- The external behaviour `GcsAccessConfig.model_post_init` consults:
`jsonParse key = some d` models `json_to_dict(key)` returning the
dictionary `d` (and `none` models it returning a non-dict), and
`isFile key` models `Path(key).is_file()`. -/
structure GcsEnv (α : Type) where
  jsonParse : String → Option α
  isFile : String → Bool

/-- The five named GCS auth modes accepted verbatim. -/
def ALLOWED_AUTH_VALUES : List String :=
  ["google_default", "cache", "anon", "browser", "cloud"]

/-- `GcsAccessConfig.model_post_init`: resolves `token` from
`service_account_key` by cases, raising `ValueError` (modelled as
`Except.error`) when no case applies.  A falsy key (absent or empty
string) short-circuits to no token. -/
def model_post_init {α : Type} (env : GcsEnv α)
    (service_account_key : Option String) : Except String (TokenValue α) :=
  match service_account_key with
  | none => .ok .null
  | some key =>
    if key = "" then .ok .null
    else if key ∈ ALLOWED_AUTH_VALUES then .ok (.str key)
    else
      match env.jsonParse key with
      | some d => .ok (.dict d)
      | none =>
        if env.isFile key then .ok (.str key)
        else .error "Invalid auth token value"

/-- The class-level wiring of a connector class relevant to the
registry claims: the `connector_type` string it carries and the name of
the connection-config type its `connection_config` field is annotated
with. -/
structure ConnectorClassInfo where
  connector_type : String
  connection_config : String
deriving DecidableEq, Repr

/-- `CONNECTOR_TYPE` of the GCS module. -/
def CONNECTOR_TYPE : String := "gcs"

/-- `GcsConnectionConfig`: its `connector_type` field defaults to the
module constant. -/
def GcsConnectionConfigInfo : ConnectorClassInfo :=
  { connector_type := CONNECTOR_TYPE, connection_config := "GcsConnectionConfig" }

/-- `GcsIndexer`: `connection_config: GcsConnectionConfig`,
`connector_type: str = CONNECTOR_TYPE`. -/
def GcsIndexerInfo : ConnectorClassInfo :=
  { connector_type := CONNECTOR_TYPE, connection_config := "GcsConnectionConfig" }

/-- `GcsDownloader`: `connection_config: GcsConnectionConfig`,
`connector_type: str = CONNECTOR_TYPE`. -/
def GcsDownloaderInfo : ConnectorClassInfo :=
  { connector_type := CONNECTOR_TYPE, connection_config := "GcsConnectionConfig" }

/-- `GcsUploader`: `connection_config: GcsConnectionConfig`,
`connector_type: str = CONNECTOR_TYPE`. -/
def GcsUploaderInfo : ConnectorClassInfo :=
  { connector_type := CONNECTOR_TYPE, connection_config := "GcsConnectionConfig" }

/-- A `SourceRegistryEntry` restricted to the fields the source binds
for GCS that the consistency claim inspects. -/
structure SourceRegistryEntryInfo where
  indexer : ConnectorClassInfo
  downloader : ConnectorClassInfo
  connection_config : String
deriving DecidableEq, Repr

/-- A `DestinationRegistryEntry` restricted likewise. -/
structure DestinationRegistryEntryInfo where
  uploader : ConnectorClassInfo
  connection_config : String
deriving DecidableEq, Repr

/-- `gcs_source_entry`: indexer `GcsIndexer`, downloader
`GcsDownloader`, connection config `GcsConnectionConfig`. -/
def gcs_source_entry : SourceRegistryEntryInfo :=
  { indexer := GcsIndexerInfo
    downloader := GcsDownloaderInfo
    connection_config := "GcsConnectionConfig" }

/-- `gcs_destination_entry`: uploader `GcsUploader`, connection config
`GcsConnectionConfig`. -/
def gcs_destination_entry : DestinationRegistryEntryInfo :=
  { uploader := GcsUploaderInfo
    connection_config := "GcsConnectionConfig" }

/-! ## Concrete inputs used by counterexamples and witnesses -/

/-- A descriptor whose relative path begins with two separators. -/
def fdDoubleSep : FileData :=
  { source_identifiers := some { relative_path := some "//etc/x" }
    metadata := { date_modified := none, date_created := none } }

/-- A descriptor with an ordinary leading-separator relative path. -/
def fdSlashAB : FileData :=
  { source_identifiers := some { relative_path := some "/a/b" }
    metadata := { date_modified := none, date_created := none } }

/-- A descriptor with a plain relative path and no metadata dates. -/
def fdDocs : FileData :=
  { source_identifiers := some { relative_path := some "docs/r.pdf" }
    metadata := { date_modified := none, date_created := none } }

/-- An environment in which nothing parses as JSON and no path is an
existing file. -/
def envNoJsonNoFile : GcsEnv Unit :=
  { jsonParse := fun _ => none, isFile := fun _ => false }

/-! ## Claims -/

/-- Claim C4 (confirmed): `get_download_path` returns `none` exactly
when the `FileData` lacks `source_identifiers`, or its
`source_identifiers` has an absent or empty `relative_path`; in all
other cases it returns a path. -/
theorem get_download_path_none_iff (dl : PyPath) (fd : FileData) :
    get_download_path dl fd = none ↔
      fd.source_identifiers = none ∨
        ∃ si, fd.source_identifiers = some si ∧
          (si.relative_path = none ∨ si.relative_path = some "") := by
  cases fd with
  | mk sid md =>
    cases sid with
    | none => simp [get_download_path]
    | some si =>
      cases si with
      | mk rp =>
        cases rp with
        | none => simp [get_download_path]
        | some s => by_cases h : s = "" <;> simp [get_download_path, h]

/-- Claim C1 (counterexample): a relative path beginning with two
separators strips to an absolute path, and the `pathlib` join then
discards the download directory entirely: with download directory
`/base` and relative path `//etc/x` the result is `/etc/x`, which is
not rooted under `/base`. -/
theorem get_download_path_escape :
    get_download_path (parsePath "/base") fdDoubleSep
        = some (parsePath "/etc/x") ∧
      ¬ isUnder (parsePath "/base") (parsePath "/etc/x") := by
  constructor
  · decide
  · decide

/-- Claim C1 (amended, confirmed): for every `FileData` whose relative
path is nonempty and begins with a separator, `get_download_path`
strips exactly one leading separator before joining; and provided the
stripped remainder does not itself begin with a separator, the returned
path is lexically rooted under the download directory. -/
theorem get_download_path_rooted (dl : PyPath) (fd : FileData)
    (si : SourceIdentifiers) (rp : String)
    (h1 : fd.source_identifiers = some si)
    (h2 : si.relative_path = some rp)
    (h3 : rp ≠ "")
    (h4 : startsWithSep rp = true)
    (h5 : startsWithSep (rp.drop 1) = false) :
    get_download_path dl fd = some (pathJoin dl (parsePath (rp.drop 1))) ∧
      isUnder dl (pathJoin dl (parsePath (rp.drop 1))) := by
  constructor
  · simp [get_download_path, h1, h2, h3, h4]
  · simp only [pathJoin, parsePath, h5, if_neg, Bool.false_eq_true,
      ite_false]
    exact ⟨rfl, List.prefix_append _ _⟩

/-- Witness for the amended claim C1 at a concrete input. -/
theorem get_download_path_rooted_witness :
    get_download_path (parsePath "/base") fdSlashAB
        = some (pathJoin (parsePath "/base") (parsePath ("/a/b".drop 1))) ∧
      isUnder (parsePath "/base")
        (pathJoin (parsePath "/base") (parsePath ("/a/b".drop 1))) :=
  get_download_path_rooted (parsePath "/base") fdSlashAB
    { relative_path := some "/a/b" } "/a/b" rfl rfl (by decide) (by decide)
    (by decide)

/-- Claim C5 (confirmed): evaluating the `download_dir` property twice
without an intervening override yields the identical path both times,
and the configuration is stable after the first resolution. -/
theorem download_dir_idempotent (resolvefn : PyPath → PyPath)
    (home : PyPath) (ct : String) (cfg : DownloaderConfig) :
    (download_dir resolvefn home ct
        (download_dir resolvefn home ct cfg).1).2
        = (download_dir resolvefn home ct cfg).2 ∧
      (download_dir resolvefn home ct
        (download_dir resolvefn home ct cfg).1).1
        = (download_dir resolvefn home ct cfg).1 := by
  cases cfg with
  | mk dd => cases dd <;> simp [download_dir]

/-- Claim C6 (confirmed): with no override configured, the resolved
default download directory is the resolution of
`home/.cache/unstructured/ingest/download/<connector_type>`, and every
computed download path is that root joined with the (stripped) relative
path of the `FileData`. -/
theorem download_dir_default_layout (resolvefn : PyPath → PyPath)
    (home : PyPath) (ct : String) (cfg : DownloaderConfig)
    (hcfg : cfg.download_dir = none) (fd : FileData)
    (si : SourceIdentifiers) (rp : String)
    (h1 : fd.source_identifiers = some si)
    (h2 : si.relative_path = some rp) (h3 : rp ≠ "") :
    (download_dir resolvefn home ct cfg).2
        = resolvefn (defaultDownloadDir home ct) ∧
      get_download_path (download_dir resolvefn home ct cfg).2 fd
        = some (pathJoin (resolvefn (defaultDownloadDir home ct))
            (parsePath (stripLeadingSep rp))) := by
  cases cfg with
  | mk dd =>
    cases hcfg
    constructor
    · simp [download_dir]
    · simp [download_dir, get_download_path, stripLeadingSep, h1, h2, h3]

/-- Witness for claim C6 at a concrete input. -/
theorem download_dir_default_layout_witness :
    (({ download_dir := none } : DownloaderConfig).download_dir = none ∧
        fdDocs.source_identifiers
          = some { relative_path := some "docs/r.pdf" } ∧
        ("docs/r.pdf" : String) ≠ "") ∧
      (download_dir id (parsePath "/home/user") "gcs"
            { download_dir := none }).2
          = id (defaultDownloadDir (parsePath "/home/user") "gcs") ∧
        get_download_path
            (download_dir id (parsePath "/home/user") "gcs"
              { download_dir := none }).2 fdDocs
          = some (pathJoin
              (id (defaultDownloadDir (parsePath "/home/user") "gcs"))
              (parsePath (stripLeadingSep "docs/r.pdf"))) :=
  ⟨⟨rfl, rfl, by decide⟩,
    download_dir_default_layout id (parsePath "/home/user") "gcs"
      { download_dir := none } rfl fdDocs
      { relative_path := some "docs/r.pdf" } "docs/r.pdf" rfl rfl
      (by decide)⟩

/-- Claim C7 (confirmed): the default `run_async` returns exactly what
the synchronous `run` returns, for every backend, descriptor and
keyword options. -/
theorem run_async_eq_run (d : DownloaderImpl) (fd : FileData)
    (kw : Kwargs) : run_async d fd kw = d.run fd kw := rfl

/-- Claim C8 (confirmed): the GCS registry entries are internally
consistent: the source entry's indexer and downloader, the destination
entry's uploader and both entries themselves bind the connection-config
type `GcsConnectionConfig`, and every bound class carries
`connector_type` equal to `"gcs"`. -/
theorem gcs_registry_consistent :
    gcs_source_entry.indexer.connection_config
        = gcs_source_entry.connection_config ∧
      gcs_source_entry.downloader.connection_config
        = gcs_source_entry.connection_config ∧
      gcs_destination_entry.uploader.connection_config
        = gcs_source_entry.connection_config ∧
      gcs_destination_entry.connection_config
        = gcs_source_entry.connection_config ∧
      GcsConnectionConfigInfo.connection_config
        = gcs_source_entry.connection_config ∧
      gcs_source_entry.indexer.connector_type = "gcs" ∧
      gcs_source_entry.downloader.connector_type = "gcs" ∧
      gcs_destination_entry.uploader.connector_type = "gcs" ∧
      GcsConnectionConfigInfo.connector_type = "gcs" := by
  refine ⟨rfl, rfl, rfl, rfl, rfl, rfl, rfl, rfl, rfl⟩

/-- Claim C2 (counterexample): the empty string is neither `None`, nor
a named auth mode, nor (in this environment) a JSON object or an
existing file, so the claim as stated requires construction to raise;
but the falsy check short-circuits and `model_post_init` returns
without raising, leaving the token unset. -/
theorem model_post_init_empty_no_raise :
    ("" ∉ ALLOWED_AUTH_VALUES) ∧
      envNoJsonNoFile.jsonParse "" = none ∧
      envNoJsonNoFile.isFile "" = false ∧
      model_post_init envNoJsonNoFile (some "") = .ok .null := by
  exact ⟨by decide, rfl, rfl, rfl⟩

/-- Claim C2 (amended, confirmed): `model_post_init` resolves the token
by cases: an absent or empty `service_account_key` leaves the token
unset; one of the five named auth modes becomes a string token of that
mode; otherwise a key parsing as a JSON dictionary becomes that
dictionary; otherwise a key naming an existing file becomes a string
token of that path; any other nonempty input raises immediately. -/
theorem model_post_init_cases {α : Type} (env : GcsEnv α) :
    model_post_init env none = .ok .null ∧
      model_post_init env (some "") = .ok .null ∧
      (∀ k, k ∈ ALLOWED_AUTH_VALUES →
        model_post_init env (some k) = .ok (.str k)) ∧
      (∀ k d, k ≠ "" → k ∉ ALLOWED_AUTH_VALUES →
        env.jsonParse k = some d →
        model_post_init env (some k) = .ok (.dict d)) ∧
      (∀ k, k ≠ "" → k ∉ ALLOWED_AUTH_VALUES → env.jsonParse k = none →
        env.isFile k = true →
        model_post_init env (some k) = .ok (.str k)) ∧
      (∀ k, k ≠ "" → k ∉ ALLOWED_AUTH_VALUES → env.jsonParse k = none →
        env.isFile k = false →
        model_post_init env (some k) = .error "Invalid auth token value") := by
  refine ⟨rfl, rfl, ?_, ?_, ?_, ?_⟩
  · intro k hk
    have hne : k ≠ "" := by rintro rfl; revert hk; decide
    simp [model_post_init, hne, hk]
  · intro k d hne hmode hjson
    simp [model_post_init, hne, hmode, hjson]
  · intro k hne hmode hjson hfile
    simp [model_post_init, hne, hmode, hjson, hfile]
  · intro k hne hmode hjson hfile
    simp [model_post_init, hne, hmode, hjson, hfile]

/-- Witness for the amended claim C2 at concrete inputs, one per
interesting branch of the case analysis. -/
theorem model_post_init_cases_witness :
    ("anon" ∈ ALLOWED_AUTH_VALUES ∧
        model_post_init envNoJsonNoFile (some "anon") = .ok (.str "anon")) ∧
      (("bogus" : String) ≠ "" ∧ "bogus" ∉ ALLOWED_AUTH_VALUES ∧
        envNoJsonNoFile.jsonParse "bogus" = none ∧
        envNoJsonNoFile.isFile "bogus" = false ∧
        model_post_init envNoJsonNoFile (some "bogus")
          = .error "Invalid auth token value") :=
  ⟨⟨by decide, (model_post_init_cases envNoJsonNoFile).2.2.1 "anon"
      (by decide)⟩,
    ⟨by decide, by decide, rfl, rfl,
      (model_post_init_cases envNoJsonNoFile).2.2.2.2.2 "bogus" (by decide)
        (by decide) rfl rfl⟩⟩

/-- Claim C9 (confirmed): the empty string is falsy, so constructing
`GcsAccessConfig` with an empty `service_account_key` behaves exactly
like an absent one: no raise, token left unset, in every environment. -/
theorem model_post_init_empty_like_none {α : Type} (env : GcsEnv α) :
    model_post_init env (some "") = .ok .null ∧
      model_post_init env (some "") = model_post_init env none :=
  ⟨rfl, rfl⟩

/-- A float-parsing abstraction for witnesses: only the strings `"2"`
and `"3"` parse. -/
def pfNum : String → Option ℚ :=
  fun s => if s = "2" then some 2 else if s = "3" then some 3 else none

/-- A descriptor whose two metadata dates are the numeric strings
`"2"` (modified) and `"3"` (created). -/
def fdDates : FileData :=
  { source_identifiers := none
    metadata := { date_modified := some "2", date_created := some "3" } }

/-- The empty timestamp store. -/
def fsEmpty : TimeStore := fun _ => none

/-- Claim C3 (confirmed): when both metadata dates are present and
float-parseable, `generate_download_response` sets the timestamps of
the downloaded file to exactly the parsed values (access time from
`date_created`, modification time from `date_modified`) and touches no
other path; when either date is absent or unparseable the store is left
entirely untouched and no error is raised.  The hypothesis `pf "" =
none` records that Python `float("")` raises `ValueError`. -/
theorem generate_download_response_timestamps
    (pf : String → Option ℚ) (hpf : pf "" = none) (fs : TimeStore)
    (fd : FileData) (dp : PyPath) :
    (∀ dm dc qm qc,
        fd.metadata.date_modified = some dm → pf dm = some qm →
        fd.metadata.date_created = some dc → pf dc = some qc →
        (generate_download_response pf fs fd dp).1 dp = some (qc, qm) ∧
          ∀ q, q ≠ dp →
            (generate_download_response pf fs fd dp).1 q = fs q) ∧
      ((fd.metadata.date_modified = none ∨
          (∃ s, fd.metadata.date_modified = some s ∧ pf s = none) ∨
          fd.metadata.date_created = none ∨
          (∃ s, fd.metadata.date_created = some s ∧ pf s = none)) →
        (generate_download_response pf fs fd dp).1 = fs) := by
  constructor
  · intro dm dc qm qc h1 h2 h3 h4
    have hdm : dm ≠ "" := by
      rintro rfl; rw [hpf] at h2; exact Option.noConfusion h2
    have hdc : dc ≠ "" := by
      rintro rfl; rw [hpf] at h4; exact Option.noConfusion h4
    have hc1 : dateUsable pf (some dm) = true := by
      simp [dateUsable, is_float, h2, hdm]
    have hc2 : dateUsable pf (some dc) = true := by
      simp [dateUsable, is_float, h4, hdc]
    constructor
    · simp [generate_download_response, h1, h2, h3, h4, hc1, hc2, os_utime]
    · intro q hq
      simp [generate_download_response, h1, h2, h3, h4, hc1, hc2, os_utime,
        hq]
  · intro h
    have hcond : (dateUsable pf fd.metadata.date_modified &&
        dateUsable pf fd.metadata.date_created) = false := by
      rcases h with h | ⟨s, hs, hps⟩ | h | ⟨s, hs, hps⟩
      · simp [dateUsable, h]
      · simp [dateUsable, hs, is_float, hps]
      · simp [dateUsable, h]
      · simp [dateUsable, hs, is_float, hps]
    simp [generate_download_response, hcond]

/-- Witness for claim C3 at a concrete input: the timestamps land as
(access = created = 3, modification = modified = 2). -/
theorem generate_download_response_timestamps_witness :
    pfNum "" = none ∧
      (generate_download_response pfNum fsEmpty fdDates
          (parsePath "/d/f")).1 (parsePath "/d/f") = some (3, 2) :=
  ⟨rfl,
    ((generate_download_response_timestamps pfNum rfl fsEmpty fdDates
          (parsePath "/d/f")).1 "2" "3" 2 3 rfl rfl rfl rfl).1⟩

/-- Claim C10 (confirmed): in both branches the returned
`DownloadResponse` pairs exactly the unmodified `FileData` argument
with exactly the download-path argument. -/
theorem generate_download_response_frame (pf : String → Option ℚ)
    (fs : TimeStore) (fd : FileData) (dp : PyPath) :
    (generate_download_response pf fs fd dp).2
        = { file_data := fd, path := dp } := by
  unfold generate_download_response
  split <;> rfl
